import Mathlib

/-!
Shallow embedding of `src/main.ts` (Akamai EdgeWorker "ew-nomoreleakskey"):
an HTTP handler that validates a JSON body with `uname`/`passwd` fields,
normalizes the credentials, and returns a SHA-256 digest as lowercase hex.

External capabilities (the `encoding`, `crypto` and string-normalization
primitives of the host runtime) are modelled as parameters, per the spec's
"external collaborators ... consumed as opaque capabilities".  JavaScript
strings are modelled as Lean `String`s (sequences of Unicode scalar values);
the JavaScript `.length` (UTF-16 code-unit count) is modelled by
`utf16Length`.
-/

namespace NoMoreLeaks

/-- Number of UTF-16 code units of a string: an astral code point
(≥ 0x10000) is a surrogate pair, i.e. two code units.  This is the value of
the JavaScript `.length` property. -/
def utf16Length (s : String) : Nat :=
  (s.data.map (fun c => if 65536 ≤ c.toNat then 2 else 1)).sum

/-- Recognized whitespace skipped by JavaScript `parseInt`. -/
def isWhitespaceJS (c : Char) : Bool :=
  c = ' ' || c = '\t' || c = '\n' || c = '\r' || c = '\x0b' || c = '\x0c'

/-- Numeric value of a list of decimal digit characters. -/
def digitsToNat (cs : List Char) : Nat :=
  cs.foldl (fun a c => a * 10 + (c.toNat - 48)) 0

/-- JavaScript `parseInt(s, 10)`: skip leading whitespace, optional sign,
then the longest prefix of decimal digits; `none` models `NaN` (no digits
found). Trailing garbage is ignored. -/
def parseIntJS (s : String) : Option Int :=
  let cs := s.data.dropWhile isWhitespaceJS
  match cs with
  | '-' :: rest =>
    let ds := rest.takeWhile Char.isDigit
    if ds.isEmpty then none else some (-(digitsToNat ds : Int))
  | '+' :: rest =>
    let ds := rest.takeWhile Char.isDigit
    if ds.isEmpty then none else some ((digitsToNat ds : Int))
  | rest =>
    let ds := rest.takeWhile Char.isDigit
    if ds.isEmpty then none else some ((digitsToNat ds : Int))

/-- JavaScript `x < y` where `x` may be `NaN` (`none`): any comparison with
`NaN` is false. -/
def nanLt (x : Option Int) (y : Int) : Bool :=
  match x with
  | some n => decide (n < y)
  | none => false

/-- The parsed JSON request body: the `uname` and `passwd` fields, each
possibly absent.  Per the spec's data model both are strings. -/
structure Body where
  uname : Option String
  passwd : Option String
  deriving DecidableEq, Repr

/-- The incoming request: `contentLength` is the result of
`request.getHeader("content-length")` (`none` models `undefined` for an
absent header), and `jsonBody` is the result of the `request.json()`
promise: the parsed body, or a parse error. -/
structure Request where
  contentLength : Option (List String)
  jsonBody : Except String Body

/-- The value handed to `createResponse(status, headers, body)`. -/
structure Response where
  status : Nat
  headers : List (String × List String)
  body : String
  deriving DecidableEq, Repr

/-- Model of the `create-response` module's `createResponse`. -/
def createResponse (status : Nat) (headers : List (String × List String))
    (body : String) : Response :=
  { status := status, headers := headers, body := body }

/-- Result of one invocation of the handler: a response, or an uncaught
exception (rejected promise). -/
inductive Outcome where
  | resp : Response → Outcome
  | thrown : Outcome
  deriving DecidableEq, Repr

/-- The external capabilities the handler consumes: `String.prototype.toLowerCase`,
`String.prototype.normalize("NFC")`, the `TextEncoder` UTF-8 encoder, and
`crypto.subtle.digest` (algorithm name and input bytes to digest bytes). -/
structure Primitives where
  toLowerCase : String → String
  normalizeNFC : String → String
  utf8Encode : String → List Nat
  digest : String → List Nat → List Nat

/-- Hex digit characters 0-9a-f, as produced by `Number.prototype.toString(16)`
for digit values 0-15 (lowercase). -/
def hexDigitChar (n : Nat) : Char :=
  if n < 10 then Char.ofNat (48 + n) else Char.ofNat (87 + n)

/-- Hex digits of `n` in most-significant-first order, accumulator style;
`fuel` bounds the recursion (as in the JavaScript number-to-string loop,
which is bounded by the magnitude of the number). -/
def toHexAux : Nat → Nat → List Char → List Char
  | 0, _, acc => acc
  | _ + 1, 0, acc => acc
  | fuel + 1, n, acc => toHexAux fuel (n / 16) (hexDigitChar (n % 16) :: acc)

/-- JavaScript `b.toString(16)` for a non-negative integer `b`: minimal
lowercase hex representation, `"0"` for zero. -/
def toString16 (b : Nat) : List Char :=
  if b = 0 then ['0'] else toHexAux b b []

/-- JavaScript `s.padStart(2, "0")`: left-pad with `'0'` to length 2. -/
def padStart2 (cs : List Char) : List Char :=
  if cs.length < 2 then List.replicate (2 - cs.length) '0' ++ cs else cs

/-- One byte rendered as two lowercase hex characters:
`b.toString(16).padStart(2, "0")` from `generateDigest`. -/
def byteHex (b : Nat) : List Char :=
  padStart2 (toString16 b)

/-- The hex-encoding pipeline of `generateDigest` line 96:
`walkable.map((b) => b.toString(16).padStart(2, "0")).join("")`. -/
def hexJoin (bs : List Nat) : List Char :=
  List.flatten (bs.map byteHex)

/-- Model of `generateDigest(algorithm, stringToDigest)`: UTF-8 encode the
string, digest it, view the result buffer as bytes (`Uint8Array`, hence the
`% 256`), and hex-encode. -/
def generateDigest (P : Primitives) (algorithm : String)
    (stringToDigest : String) : String :=
  let msgUint8 := P.utf8Encode stringToDigest
  let hashBuffer := P.digest algorithm msgUint8
  let walkable := hashBuffer.map (fun b => b % 256)
  String.mk (hexJoin walkable)

/-- JavaScript truthiness of a possibly-absent string field: `undefined`
and the empty string are falsy, every other string is truthy. -/
def truthy : Option String → Bool
  | none => false
  | some s => if s = "" then false else true

/-- The `myBody[PASSWD].length > 1` check (JavaScript `.length` counts
UTF-16 code units). -/
def passwdLenOk : Option String → Bool
  | none => false
  | some p => decide (1 < utf16Length p)

/-- The validation condition of main.ts lines 27-32:
`myBody && myBody[UNAME] && myBody[PASSWD] && myBody[PASSWD].length > 1`. -/
def bodyValid : Option Body → Bool
  | none => false
  | some b => truthy b.uname && truthy b.passwd && passwdLenOk b.passwd

/-- The normalized credential string of main.ts lines 43-45:
`myBody[UNAME].toLowerCase().normalize("NFC") + myBody[PASSWD].normalize("NFC")`. -/
def normalizedUnamePasswd (P : Primitives) (uname passwd : String) : String :=
  P.normalizeNFC (P.toLowerCase uname) ++ P.normalizeNFC passwd

/-- JSON.stringify of the one-field success object: the hex digest contains
only characters 0-9a-f so no JSON escaping occurs. -/
def stringifyKey (hex : String) : String :=
  "\x7b\"key\":\"" ++ hex ++ "\"\x7d"

/-- The body-reading-and-validation section of the handler (lines 20-62):
`request.json().catch(() => null)` followed by validation and either the
200 digest response or the 500 "Something wrong" response. -/
def processBody (P : Primitives) (jsonResult : Except String Body) : Response :=
  let myBody : Option Body :=
    match jsonResult with
    | Except.ok b => some b
    | Except.error _ => none
  match myBody with
  | some b =>
    if truthy b.uname && truthy b.passwd && passwdLenOk b.passwd then
      let hex := generateDigest P "SHA-256"
        (normalizedUnamePasswd P (b.uname.getD "") (b.passwd.getD ""))
      createResponse 200 [("Content-Type", ["application/json"])]
        (stringifyKey hex)
    else
      createResponse 500 [] "Something wrong with the provided body"
  | none => createResponse 500 [] "Something wrong with the provided body"

/-- Maximum body size accepted by the handler (line 13). -/
def maxBodyLength : Int := 16384

/-- Model of `responseProvider`: if the `content-length` header is absent,
indexing `undefined[0]` throws; otherwise the size gate
`parseInt(header[0], 10) < 16384` decides between body processing and the
"Body too large" rejection (a `NaN` comparison is false). -/
def responseProvider (P : Primitives) (request : Request) : Outcome :=
  match request.contentLength with
  | none => Outcome.thrown
  | some vals =>
    if nanLt (vals.head?.bind parseIntJS) maxBodyLength then
      Outcome.resp (processBody P request.jsonBody)
    else
      Outcome.resp (createResponse 500 [] "Body too large")

/-- Characters `0`-`9` and `a`-`f`: the alphabet of the produced hex digest. -/
def isLowerHexDigit (c : Char) : Bool :=
  ('0' ≤ c && c ≤ '9') || ('a' ≤ c && c ≤ 'f')

/-- Numeric value of a lowercase hex digit character. -/
def hexVal (c : Char) : Nat :=
  if c.toNat ≤ 57 then c.toNat - 48 else c.toNat - 87

/-- Decode a hex string two characters at a time, recovering the byte
sequence that `hexJoin` rendered. -/
def decodeHex : List Char → List Nat
  | c1 :: c2 :: rest => (hexVal c1 * 16 + hexVal c2) :: decodeHex rest
  | _ => []

/-- ASCII lowercasing, a concrete instance of the lowercase capability used
in witnesses. -/
def asciiLower (s : String) : String :=
  String.mk (s.data.map Char.toLower)

/-- A concrete instantiation of the external capabilities, used by the
closed witnesses: ASCII lowercasing, identity normalization, code-point
encoding, and a constant 32-byte digest. -/
def samplePrimitives : Primitives where
  toLowerCase := asciiLower
  normalizeNFC := id
  utf8Encode := fun s => s.data.map Char.toNat
  digest := fun _ _ => List.replicate 32 0

/-! Helper lemmas shared by the claim theorems. -/

/-- A string with at least one UTF-16 code unit is non-empty. -/
theorem utf16Length_pos_ne (p : String) (h : 0 < utf16Length p) : p ≠ "" := by
  intro he
  rw [he] at h
  exact absurd h (by decide)

/-- When the size gate passes (header present, first value parses below the
limit), the handler hands the body to `processBody`. -/
theorem gate_pass (P : Primitives) (req : Request) (vals : List String)
    (k : Int) (h1 : req.contentLength = some vals)
    (h2 : vals.head?.bind parseIntJS = some k) (h3 : k < maxBodyLength) :
    responseProvider P req = Outcome.resp (processBody P req.jsonBody) := by
  simp [responseProvider, h1, h2, nanLt, h3]

/-- On a body with truthy credentials and a long-enough password,
`processBody` produces the 200 digest response. -/
theorem processBody_ok (P : Primitives) (u p : String) (hu : u ≠ "")
    (hp : 1 < utf16Length p) :
    processBody P (Except.ok ⟨some u, some p⟩) =
      createResponse 200 [("Content-Type", ["application/json"])]
        (stringifyKey (generateDigest P "SHA-256"
          (normalizedUnamePasswd P u p))) := by
  have hpne : p ≠ "" := utf16Length_pos_ne p (Nat.lt_of_lt_of_le Nat.zero_lt_one (Nat.le_of_lt hp))
  simp [processBody, truthy, passwdLenOk, hu, hpne, hp]

set_option maxRecDepth 4096 in
/-- Each byte below 256 is rendered by `byteHex` as exactly two lowercase
hex characters that decode back to the byte. -/
theorem byteHex_spec : ∀ b, b < 256 → (byteHex b).length = 2 ∧
    (byteHex b).all isLowerHexDigit = true ∧ decodeHex (byteHex b) = [b] := by
  decide

/-- The full hex-encoding pipeline: output length is twice the byte count,
all characters are lowercase hex digits, and decoding recovers the bytes. -/
theorem hexJoin_spec (bs : List Nat) (h : ∀ b ∈ bs, b < 256) :
    (hexJoin bs).length = 2 * bs.length ∧
    (hexJoin bs).all isLowerHexDigit = true ∧
    decodeHex (hexJoin bs) = bs := by
  induction bs with
  | nil => simp [hexJoin, decodeHex]
  | cons b rest ih =>
    have hb : b < 256 := h b (List.mem_cons_self b rest)
    obtain ⟨rl, ra, rd⟩ := ih (fun x hx => h x (List.mem_cons_of_mem _ hx))
    obtain ⟨hl, ha, hd⟩ := byteHex_spec b hb
    obtain ⟨c1, c2, hc⟩ := List.length_eq_two.mp hl
    have hcons : hexJoin (b :: rest) = byteHex b ++ hexJoin rest := by
      simp [hexJoin]
    have hval : hexVal c1 * 16 + hexVal c2 = b := by
      rw [hc] at hd
      simpa [decodeHex] using hd
    refine ⟨?_, ?_, ?_⟩
    · rw [hcons, List.length_append, hl, rl, List.length_cons]
      ring
    · rw [hcons, List.all_append, ha, ra]
      rfl
    · rw [hcons, hc]
      show (hexVal c1 * 16 + hexVal c2) :: decodeHex (hexJoin rest) = b :: rest
      rw [hval, rd]

/-! Claim C1. -/

/-- C1 counterexample: a request whose `content-length` value `"abc"` does
not parse as an integer is NOT processed further — it is rejected with the
500 "Body too large" response, contradicting the claim that such requests
are treated as not-large and have their body read and validated. -/
theorem claim_C1_counterexample :
    parseIntJS "abc" = none ∧
    responseProvider samplePrimitives
        ⟨some ["abc"], Except.ok ⟨some "user", some "password"⟩⟩ =
      Outcome.resp (createResponse 500 [] "Body too large") := by
  decide

/-- C1 (amended): when the `content-length` header is absent the handler
throws (indexing `undefined`); when it is present but its first value does
not parse as an integer, `parseInt` yields `NaN`, the comparison
`NaN < 16384` is false, and the handler rejects with 500 "Body too large"
without reading the body.  In neither case does it proceed to read and
validate the body. -/
theorem claim_C1_amended (P : Primitives) (req : Request) :
    (req.contentLength = none → responseProvider P req = Outcome.thrown) ∧
    (∀ vals, req.contentLength = some vals →
      vals.head?.bind parseIntJS = none →
      responseProvider P req =
        Outcome.resp (createResponse 500 [] "Body too large")) := by
  constructor
  · intro h
    simp [responseProvider, h]
  · intro vals h1 h2
    simp [responseProvider, h1, h2, nanLt]

/-- C1 witness: the amended theorem applied at a concrete request with the
header absent. -/
theorem claim_C1_witness :
    responseProvider samplePrimitives
        ⟨none, Except.ok ⟨some "user", some "password"⟩⟩ = Outcome.thrown :=
  (claim_C1_amended samplePrimitives
    ⟨none, Except.ok ⟨some "user", some "password"⟩⟩).1 rfl

/-! Claim C4. -/

/-- C4: a request with `content-length` parsing to 16383 passes the size
gate and its body is handed to `processBody` (for every body), while with
16384 the handler returns 500 "Body too large" uniformly in the body — the
body is never read or parsed. -/
theorem claim_C4 (P : Primitives) (b1 b2 : Except String Body) :
    responseProvider P ⟨some ["16383"], b1⟩ =
      Outcome.resp (processBody P b1) ∧
    responseProvider P ⟨some ["16384"], b2⟩ =
      Outcome.resp (createResponse 500 [] "Body too large") := by
  constructor
  · exact gate_pass P ⟨some ["16383"], b1⟩ ["16383"] 16383 rfl (by decide)
      (by decide)
  · have h : nanLt (parseIntJS "16384") maxBodyLength = false := by decide
    simp [responseProvider, h]

/-- C4 witness: the theorem applied at concrete bodies — a parse failure
for the 16383 side (processed into the validation-failure response) and a
well-formed body for the 16384 side (still rejected as too large). -/
theorem claim_C4_witness :
    responseProvider samplePrimitives ⟨some ["16383"], Except.error "bad"⟩ =
      Outcome.resp (processBody samplePrimitives (Except.error "bad")) ∧
    responseProvider samplePrimitives
        ⟨some ["16384"], Except.ok ⟨some "user", some "password"⟩⟩ =
      Outcome.resp (createResponse 500 [] "Body too large") :=
  claim_C4 samplePrimitives (Except.error "bad")
    (Except.ok ⟨some "user", some "password"⟩)

/-! Claim C7. -/

/-- C7: below the size limit, a JSON parse error is swallowed into a null
body and answered with 500 "Something wrong with the provided body" — a
response identical to the one for a body missing `passwd` and to the one
for a too-short password. -/
theorem claim_C7 (P : Primitives) (vals : List String) (k : Int) (e : String)
    (h2 : vals.head?.bind parseIntJS = some k) (h3 : k < maxBodyLength) :
    responseProvider P ⟨some vals, Except.error e⟩ =
      Outcome.resp
        (createResponse 500 [] "Something wrong with the provided body") ∧
    responseProvider P ⟨some vals, Except.error e⟩ =
      responseProvider P ⟨some vals, Except.ok ⟨some "user", none⟩⟩ ∧
    responseProvider P ⟨some vals, Except.error e⟩ =
      responseProvider P ⟨some vals, Except.ok ⟨some "user", some "x"⟩⟩ := by
  have g1 := gate_pass P ⟨some vals, Except.error e⟩ vals k rfl h2 h3
  have g2 := gate_pass P ⟨some vals, Except.ok ⟨some "user", none⟩⟩ vals k rfl
    h2 h3
  have g3 := gate_pass P ⟨some vals, Except.ok ⟨some "user", some "x"⟩⟩ vals k
    rfl h2 h3
  refine ⟨?_, ?_, ?_⟩
  · rw [g1]
    rfl
  · rw [g1, g2]
    rfl
  · rw [g1, g3]
    rfl

/-- C7 witness: the theorem applied at a concrete request with
`content-length` 100 and a malformed body. -/
theorem claim_C7_witness :
    responseProvider samplePrimitives ⟨some ["100"], Except.error "oops"⟩ =
      Outcome.resp
        (createResponse 500 [] "Something wrong with the provided body") :=
  (claim_C7 samplePrimitives ["100"] 100 "oops" (by decide) (by decide)).1

/-! Claim C2. -/

/-- C2: on a validated request, the string hashed is
`normalize-NFC(lowercase(uname)) ++ normalize-NFC(passwd)` (lowercase first,
then NFC; no case change on the password; no separator), and the digest is
computed over the UTF-8 byte encoding of that concatenation, viewed as
bytes and hex-encoded. -/
theorem claim_C2 (P : Primitives) (vals : List String) (k : Int)
    (body : Except String Body) (u p : String)
    (h2 : vals.head?.bind parseIntJS = some k) (h3 : k < maxBodyLength)
    (hb : body = Except.ok ⟨some u, some p⟩)
    (hu : u ≠ "") (hp : 1 < utf16Length p) :
    responseProvider P ⟨some vals, body⟩ =
      Outcome.resp (createResponse 200 [("Content-Type", ["application/json"])]
        (stringifyKey (String.mk (hexJoin
          ((P.digest "SHA-256" (P.utf8Encode
            (P.normalizeNFC (P.toLowerCase u) ++ P.normalizeNFC p))).map
            (fun b => b % 256)))))) := by
  subst hb
  rw [gate_pass P _ vals k rfl h2 h3]
  rw [show (Request.mk (some vals)
      (Except.ok ⟨some u, some p⟩)).jsonBody = Except.ok ⟨some u, some p⟩
    from rfl]
  rw [processBody_ok P u p hu hp]
  rfl

/-- C2 witness: the theorem applied at a concrete request. -/
theorem claim_C2_witness :
    responseProvider samplePrimitives
        ⟨some ["100"], Except.ok ⟨some "user", some "pw"⟩⟩ =
      Outcome.resp (createResponse 200 [("Content-Type", ["application/json"])]
        (stringifyKey (String.mk (hexJoin
          ((samplePrimitives.digest "SHA-256" (samplePrimitives.utf8Encode
            (samplePrimitives.normalizeNFC
              (samplePrimitives.toLowerCase "user") ++
             samplePrimitives.normalizeNFC "pw"))).map
            (fun b => b % 256)))))) :=
  claim_C2 samplePrimitives ["100"] 100 _ "user" "pw" (by decide) (by decide)
    rfl (by decide) (by decide)

/-! Claim C3. -/

/-- C3: for every valid input (truthy non-empty username, password of
UTF-16 length at least 2, content-length parsing below 16384, well-formed
body) and every digest capability producing 32 bytes — as SHA-256 does —
the handler returns status 200, header `Content-Type: application/json`,
and the JSON body with single field `key` whose value is a 64-character
lowercase hexadecimal string. -/
theorem claim_C3 (P : Primitives) (vals : List String) (k : Int) (u p : String)
    (hsha : ∀ bytes, (P.digest "SHA-256" bytes).length = 32)
    (h2 : vals.head?.bind parseIntJS = some k) (h3 : k < maxBodyLength)
    (hu : u ≠ "") (hp : 1 < utf16Length p) :
    ∃ hex : String,
      responseProvider P ⟨some vals, Except.ok ⟨some u, some p⟩⟩ =
        Outcome.resp (createResponse 200
          [("Content-Type", ["application/json"])] (stringifyKey hex)) ∧
      hex.length = 64 ∧ hex.data.all isLowerHexDigit = true := by
  refine ⟨generateDigest P "SHA-256" (normalizedUnamePasswd P u p), ?_, ?_, ?_⟩
  · rw [gate_pass P _ vals k rfl h2 h3]
    rw [show (Request.mk (some vals)
        (Except.ok ⟨some u, some p⟩)).jsonBody = Except.ok ⟨some u, some p⟩
      from rfl]
    rw [processBody_ok P u p hu hp]
  all_goals {
    have hbound : ∀ b ∈ (P.digest "SHA-256"
        (P.utf8Encode (normalizedUnamePasswd P u p))).map (fun b => b % 256),
        b < 256 := by
      intro b hb
      obtain ⟨a, _, ha⟩ := List.mem_map.mp hb
      omega
    have hlen : ((P.digest "SHA-256"
        (P.utf8Encode (normalizedUnamePasswd P u p))).map
        (fun b => b % 256)).length = 32 := by
      rw [List.length_map, hsha]
    obtain ⟨hl, ha, _⟩ := hexJoin_spec _ hbound
    rw [hlen] at hl
    first
    | exact hl
    | exact ha
  }

/-- C3 witness: the theorem applied at a concrete request and a concrete
32-byte digest capability. -/
theorem claim_C3_witness :
    ∃ hex : String,
      responseProvider samplePrimitives
          ⟨some ["100"], Except.ok ⟨some "user", some "pw"⟩⟩ =
        Outcome.resp (createResponse 200
          [("Content-Type", ["application/json"])] (stringifyKey hex)) ∧
      hex.length = 64 ∧ hex.data.all isLowerHexDigit = true :=
  claim_C3 samplePrimitives ["100"] 100 "user" "pw" (fun _ => rfl)
    (by decide) (by decide) (by decide) (by decide)

/-! Claim C5. -/

/-- C5: with a well-formed body, truthy username, and content-length below
the limit, a password of length exactly 1 is rejected with the 500
"Something wrong with the provided body" response, while a password of
length exactly 2 is accepted and yields the 200 digest response. -/
theorem claim_C5 (P : Primitives) (vals : List String) (k : Int)
    (u p1 p2 : String)
    (h2 : vals.head?.bind parseIntJS = some k) (h3 : k < maxBodyLength)
    (hu : u ≠ "") (hp1 : utf16Length p1 = 1) (hp2 : utf16Length p2 = 2) :
    responseProvider P ⟨some vals, Except.ok ⟨some u, some p1⟩⟩ =
      Outcome.resp
        (createResponse 500 [] "Something wrong with the provided body") ∧
    responseProvider P ⟨some vals, Except.ok ⟨some u, some p2⟩⟩ =
      Outcome.resp (createResponse 200
        [("Content-Type", ["application/json"])]
        (stringifyKey (generateDigest P "SHA-256"
          (normalizedUnamePasswd P u p2)))) := by
  constructor
  · have hp1ne : p1 ≠ "" := utf16Length_pos_ne p1 (by omega)
    rw [gate_pass P _ vals k rfl h2 h3]
    rw [show (Request.mk (some vals)
        (Except.ok ⟨some u, some p1⟩)).jsonBody = Except.ok ⟨some u, some p1⟩
      from rfl]
    simp [processBody, truthy, passwdLenOk, hu, hp1ne, hp1]
  · rw [gate_pass P _ vals k rfl h2 h3]
    rw [show (Request.mk (some vals)
        (Except.ok ⟨some u, some p2⟩)).jsonBody = Except.ok ⟨some u, some p2⟩
      from rfl]
    rw [processBody_ok P u p2 hu (by omega)]

/-- C5 witness: the theorem applied at a concrete request with passwords
`"a"` (length 1, rejected) and `"ab"` (length 2, accepted). -/
theorem claim_C5_witness :
    responseProvider samplePrimitives
        ⟨some ["100"], Except.ok ⟨some "user", some "a"⟩⟩ =
      Outcome.resp
        (createResponse 500 [] "Something wrong with the provided body") ∧
    responseProvider samplePrimitives
        ⟨some ["100"], Except.ok ⟨some "user", some "ab"⟩⟩ =
      Outcome.resp (createResponse 200
        [("Content-Type", ["application/json"])]
        (stringifyKey (generateDigest samplePrimitives "SHA-256"
          (normalizedUnamePasswd samplePrimitives "user" "ab")))) :=
  claim_C5 samplePrimitives ["100"] 100 "user" "a" "ab" (by decide)
    (by decide) (by decide) (by decide) (by decide)

/-! Claim C6. -/

/-- C6 counterexample: the password `"😀"` contains exactly one character
(one Unicode code point), yet validation accepts it — it occupies two
UTF-16 code units, so the `.length > 1` check passes and the handler
returns the 200 digest response.  This contradicts the claim that
validation accepts exactly the passwords with more than one character. -/
theorem claim_C6_counterexample :
    ("😀" : String).length = 1 ∧
    bodyValid (some ⟨some "user", some "😀"⟩) = true ∧
    responseProvider samplePrimitives
        ⟨some ["10"], Except.ok ⟨some "user", some "😀"⟩⟩ =
      Outcome.resp (createResponse 200
        [("Content-Type", ["application/json"])]
        (stringifyKey (generateDigest samplePrimitives "SHA-256"
          (normalizedUnamePasswd samplePrimitives "user" "😀")))) := by
  refine ⟨by decide, by decide, ?_⟩
  decide

/-- C6 (amended): the password length requirement is measured in UTF-16
code units (the JavaScript `.length`), not in bytes and not in characters:
given a truthy username, validation accepts the body exactly when the
password has more than one UTF-16 code unit.  (This coincides with the
character count for passwords of basic-plane characters, but a single
astral character already counts as two units.) -/
theorem claim_C6_amended (u p : String) (hu : u ≠ "") :
    bodyValid (some ⟨some u, some p⟩) = true ↔ 1 < utf16Length p := by
  by_cases hp : p = ""
  · subst hp
    simp [bodyValid, truthy, passwdLenOk, hu]
    decide
  · simp [bodyValid, truthy, passwdLenOk, hu, hp]

/-- C6 witness: the amended theorem applied at a concrete body. -/
theorem claim_C6_witness :
    bodyValid (some ⟨some "user", some "ab"⟩) = true ↔
      1 < utf16Length "ab" :=
  claim_C6_amended "user" "ab" (by decide)

/-! Claim C8. -/

/-- C8: two usernames whose lowercased NFC-normalized forms coincide
(in particular, usernames differing only in case, or in Unicode
representation normalizing to the same lowercase NFC form) produce the
identical digest string with any common password, and the handler produces
identical responses for them on any request. -/
theorem claim_C8 (P : Primitives) (cl : Option (List String))
    (u1 u2 p : String) (hu1 : u1 ≠ "") (hu2 : u2 ≠ "")
    (hp : 1 < utf16Length p)
    (hnorm : P.normalizeNFC (P.toLowerCase u1) =
      P.normalizeNFC (P.toLowerCase u2)) :
    generateDigest P "SHA-256" (normalizedUnamePasswd P u1 p) =
      generateDigest P "SHA-256" (normalizedUnamePasswd P u2 p) ∧
    responseProvider P ⟨cl, Except.ok ⟨some u1, some p⟩⟩ =
      responseProvider P ⟨cl, Except.ok ⟨some u2, some p⟩⟩ := by
  have hcat : normalizedUnamePasswd P u1 p = normalizedUnamePasswd P u2 p := by
    simp [normalizedUnamePasswd, hnorm]
  have hpb : processBody P (Except.ok ⟨some u1, some p⟩) =
      processBody P (Except.ok ⟨some u2, some p⟩) := by
    rw [processBody_ok P u1 p hu1 hp, processBody_ok P u2 p hu2 hp, hcat]
  refine ⟨by rw [hcat], ?_⟩
  cases cl with
  | none => rfl
  | some vals => simp [responseProvider, hpb]

/-- C8 witness: with ASCII lowercasing and identity normalization, the
usernames `"User"` and `"user"` (differing only in case) yield identical
digests and responses for the password `"pw"`. -/
theorem claim_C8_witness :
    generateDigest samplePrimitives "SHA-256"
        (normalizedUnamePasswd samplePrimitives "User" "pw") =
      generateDigest samplePrimitives "SHA-256"
        (normalizedUnamePasswd samplePrimitives "user" "pw") ∧
    responseProvider samplePrimitives
        ⟨some ["10"], Except.ok ⟨some "User", some "pw"⟩⟩ =
      responseProvider samplePrimitives
        ⟨some ["10"], Except.ok ⟨some "user", some "pw"⟩⟩ :=
  claim_C8 samplePrimitives (some ["10"]) "User" "user" "pw" (by decide)
    (by decide) (by decide) (by decide)

/-! Claim C9. -/

/-- C9: because username and password are concatenated with no separator,
any two credential pairs whose normalized username-then-password
concatenations are equal strings produce the identical digest and the
identical handler response, provided both pairs pass validation. -/
theorem claim_C9 (P : Primitives) (cl : Option (List String))
    (u1 p1 u2 p2 : String) (hu1 : u1 ≠ "") (hu2 : u2 ≠ "")
    (hp1 : 1 < utf16Length p1) (hp2 : 1 < utf16Length p2)
    (hcat : normalizedUnamePasswd P u1 p1 = normalizedUnamePasswd P u2 p2) :
    generateDigest P "SHA-256" (normalizedUnamePasswd P u1 p1) =
      generateDigest P "SHA-256" (normalizedUnamePasswd P u2 p2) ∧
    responseProvider P ⟨cl, Except.ok ⟨some u1, some p1⟩⟩ =
      responseProvider P ⟨cl, Except.ok ⟨some u2, some p2⟩⟩ := by
  have hpb : processBody P (Except.ok ⟨some u1, some p1⟩) =
      processBody P (Except.ok ⟨some u2, some p2⟩) := by
    rw [processBody_ok P u1 p1 hu1 hp1, processBody_ok P u2 p2 hu2 hp2, hcat]
  refine ⟨by rw [hcat], ?_⟩
  cases cl with
  | none => rfl
  | some vals => simp [responseProvider, hpb]

/-- C9 witness: the pairs (`"ab"`, `"cd"`) and (`"a"`, `"bcd"`) concatenate
to the same string `"abcd"` and yield identical digests and responses. -/
theorem claim_C9_witness :
    generateDigest samplePrimitives "SHA-256"
        (normalizedUnamePasswd samplePrimitives "ab" "cd") =
      generateDigest samplePrimitives "SHA-256"
        (normalizedUnamePasswd samplePrimitives "a" "bcd") ∧
    responseProvider samplePrimitives
        ⟨some ["10"], Except.ok ⟨some "ab", some "cd"⟩⟩ =
      responseProvider samplePrimitives
        ⟨some ["10"], Except.ok ⟨some "a", some "bcd"⟩⟩ :=
  claim_C9 samplePrimitives (some ["10"]) "ab" "cd" "a" "bcd" (by decide)
    (by decide) (by decide) (by decide) (by decide)

/-! Claim C10. -/

/-- C10: the hex encoding of `generateDigest` is a faithful injective
rendering of the digest bytes: for every byte sequence, the output has
exactly two lowercase hexadecimal characters per byte in byte order (so
length twice the byte count), and decoding recovers the original byte
sequence; consequently the encoding is injective on byte sequences. -/
theorem claim_C10 (bs : List Nat) (h : ∀ b ∈ bs, b < 256) :
    (String.mk (hexJoin bs)).length = 2 * bs.length ∧
    hexJoin bs = List.flatten (bs.map byteHex) ∧
    (hexJoin bs).all isLowerHexDigit = true ∧
    decodeHex (hexJoin bs) = bs ∧
    ∀ bs2, (∀ b ∈ bs2, b < 256) → hexJoin bs = hexJoin bs2 → bs = bs2 := by
  obtain ⟨hl, ha, hd⟩ := hexJoin_spec bs h
  refine ⟨?_, rfl, ha, hd, ?_⟩
  · show (hexJoin bs).length = 2 * bs.length
    exact hl
  · intro bs2 h2 heq
    obtain ⟨_, _, hd2⟩ := hexJoin_spec bs2 h2
    rw [← hd, ← hd2, heq]

/-- C10 witness: the theorem applied at the concrete byte sequence
`[0, 15, 255]`, rendered as `"000fff"`. -/
theorem claim_C10_witness :
    (String.mk (hexJoin [0, 15, 255])).length = 6 ∧
    decodeHex (hexJoin [0, 15, 255]) = [0, 15, 255] :=
  ⟨(claim_C10 [0, 15, 255] (by decide)).1,
   (claim_C10 [0, 15, 255] (by decide)).2.2.2.1⟩

end NoMoreLeaks
